import Mathlib

set_option maxHeartbeats 1000000

/-!
Shallow embedding of the payment-processing core of the `pgm` repository
(`internal/domain`, `internal/service`, `internal/queue`), with proofs about
its creation, retrieval, processing and consumer-loop logic.

Modelling conventions: `decimal.Decimal` and `float64` amounts are both
modelled as `ℚ` (the `decimal.NewFromFloat` / `InexactFloat64` conversions are
the identity here); timestamps are `Nat` ticks; UUID values are their 128-bit
integer; PostgreSQL and RabbitMQ side effects are recorded in an explicit
effect trace.  The store is modelled as available, so the 500 "store
unavailable" branches of the service are never taken.
-/

namespace Pgm

namespace uuid

/-- Value of a hexadecimal digit character, or `none` when not one. -/
def hexVal (c : Char) : Option Nat :=
  if '0' ≤ c ∧ c ≤ '9' then some (c.toNat - 48)
  else if 'a' ≤ c ∧ c ≤ 'f' then some (c.toNat - 97 + 10)
  else if 'A' ≤ c ∧ c ≤ 'F' then some (c.toNat - 65 + 10)
  else none

/-- Accumulates the 128-bit value of the canonical textual UUID form:
hyphens at offsets 8, 13, 18 and 23, hexadecimal digits elsewhere. -/
def parseAux : List Char → Nat → Nat → Option Nat
  | [], _, acc => some acc
  | c :: rest, i, acc =>
    if i = 8 ∨ i = 13 ∨ i = 18 ∨ i = 23 then
      if c = '-' then parseAux rest (i + 1) acc else none
    else
      match hexVal c with
      | some v => parseAux rest (i + 1) (acc * 16 + v)
      | none => none

/-- Modelled from the spec: `github.com/google/uuid` is an external dependency,
not code of this repository.  Per §4.2/§4.3 an identifier string "must parse as
a valid identifier"; `Parse` accepts the canonical 36-character 8-4-4-4-12
hexadecimal form and yields the 128-bit value.  It is a pure function, hence
deterministic, which is the only property the service layer relies on. -/
def Parse (s : String) : Option Nat :=
  if s.length = 36 then parseAux s.toList 0 0 else none

/-- `uuid.Nil`, the zero UUID. -/
def Nil : Nat := 0

/-- One lowercase hexadecimal digit character. -/
def hexChar (n : Nat) : Char :=
  if n < 10 then Char.ofNat (48 + n) else Char.ofNat (87 + n)

/-- Big-endian lowercase hexadecimal digits of `n`, padded to `d` digits. -/
def hexDigits : Nat → Nat → List Char
  | _, 0 => []
  | n, d + 1 => hexDigits (n / 16) d ++ [hexChar (n % 16)]

/-- `uuid.UUID.String`: canonical lowercase textual form. -/
def render (u : Nat) : String :=
  let h := hexDigits u 32
  String.mk (h.take 8) ++ "-" ++ String.mk ((h.drop 8).take 4) ++ "-" ++
    String.mk ((h.drop 12).take 4) ++ "-" ++ String.mk ((h.drop 16).take 4) ++ "-" ++
    String.mk (h.drop 20)

end uuid

namespace domain

/-- `domain.StatusPending` (`domain.PaymentStatus` is a string type in Go). -/
def StatusPending : String := "PENDING"

/-- `domain.StatusSuccess`. -/
def StatusSuccess : String := "SUCCESS"

/-- `domain.StatusFailed`. -/
def StatusFailed : String := "FAILED"

/-- `domain.Error` (internal/domain/error.go).  The runtime call-site metadata
(file, line, function, stack) is not observable by any caller logic and is
omitted; the `Args` map of `interface` values is modelled as an association
list of strings (the repository only ever stores strings and statuses there). -/
structure Error where
  code : Nat
  message : String
  description : String
  cause : Option String
  args : List (String × String)
deriving DecidableEq, Repr

/-- `domain.NewError`. -/
def NewError (code : Nat) (message : String) (description : String)
    (cause : Option String) (args : List (String × String)) : Error :=
  ⟨code, message, description, cause, args⟩

/-- `domain.PaymentRequest` (internal/domain/payment.go). -/
structure PaymentRequest where
  amount : ℚ
  currency : String
  reference : String
deriving DecidableEq, Repr

/-- `PaymentRequest.Validate` (ozzo-validation): amount `Required` (fails on
the zero value) and `Min(0.01)`; currency `Required` and `In("ETB","USD")`;
reference `Required`.  Non-`Required` rules skip empty values, which does not
change the overall verdict; modelled as `true` iff validation passes. -/
def PaymentRequest.Validate (pr : PaymentRequest) : Bool :=
  decide (pr.amount ≠ 0 ∧ (1 : ℚ) / 100 ≤ pr.amount ∧
    (pr.currency = "ETB" ∨ pr.currency = "USD") ∧ pr.reference ≠ "")

/-- `domain.Payment`, the caller-visible entity. -/
structure Payment where
  id : Nat
  amount : ℚ
  currency : String
  reference : String
  status : String
  createdAt : Nat
  updatedAt : Nat
deriving DecidableEq, Repr

end domain

namespace db

/-- `db.Payment`: one row of the `payments` table (amount, currency, unique
reference, status, created/updated timestamps, per the schema migration). -/
structure Payment where
  id : Nat
  amount : ℚ
  currency : String
  reference : String
  status : String
  createdAt : Nat
  updatedAt : Nat
deriving DecidableEq, Repr

/-- The zero value of `db.Payment` (nil UUID, empty strings, zero times). -/
def nilPayment : Payment := ⟨0, 0, "", "", "", 0, 0⟩

/-- The record store: the rows of the `payments` table. -/
abbrev Store := List Payment

/-- Modelled from the spec: the sqlc-generated `db.Queries` package is not
under `src/`.  §4.1 step 1: reports whether a payment with the given reference
already exists. -/
def CheckExistence (store : Store) (reference : String) : Bool :=
  store.any fun p => p.reference == reference

/-- Modelled from the spec (record store "fetch-by-id"; `db.Queries` is
generated code not under `src/`): returns the row with the given id, or the
zero value when absent — matching the hand-written repository
(`internal/repo/payment_postgres.go`), whose fetch returns an empty result and
no error on `sql.ErrNoRows`, and the nil-id absence check in
`service.ProcessPayment`. -/
def GetPaymentByID (store : Store) (id : Nat) : Payment :=
  (store.find? fun p => p.id == id).getD nilPayment

/-- Modelled from the spec (§4.3 step 2, "fetch the payment with an exclusive
row lock"): same lookup as `GetPaymentByID`; the row lock is a concurrency
mechanism with no effect on the sequential result. -/
def GetPaymentByIDWithLock (store : Store) (id : Nat) : Payment :=
  (store.find? fun p => p.id == id).getD nilPayment

/-- `db.CreatePaymentParams` as used by the service (amount, currency,
reference). -/
structure CreatePaymentParams where
  amount : ℚ
  currency : String
  reference : String
deriving DecidableEq, Repr

/-- Modelled from the spec (§4.1 step 2 and the schema): persists a new row
with status `PENDING`, a fresh id and current timestamps, and returns it fully
populated. -/
def CreatePayment (store : Store) (arg : CreatePaymentParams) (newId : Nat)
    (now : Nat) : Payment × Store :=
  let row : Payment := ⟨newId, arg.amount, arg.currency, arg.reference, "PENDING", now, now⟩
  (row, store ++ [row])

/-- `db.UpdatePaymentStatusParams` as used by the service (id and status). -/
structure UpdatePaymentStatusParams where
  id : Nat
  status : String
deriving DecidableEq, Repr

/-- Modelled from the spec (§4.3 step 7 / `UpdatePaymentStatus` in
payment.sql): sets the status and refreshes `updated_at` on the row with the
given id. -/
def UpdatePaymentStatus (store : Store) (arg : UpdatePaymentStatusParams)
    (now : Nat) : Store :=
  store.map fun p =>
    if p.id == arg.id then { p with status := arg.status, updatedAt := now } else p

end db

/-- One observable side effect of the service layer: a store query, a queue
publish, or a log line written with `fmt.Printf`. -/
inductive Effect where
  | checkExistence (reference : String)
  | insert (id : Nat) (reference : String)
  | fetchByID (id : Nat)
  | fetchWithLock (id : Nat)
  | updateStatus (id : Nat) (status : String)
  | publish (paymentID : String)
  | logLine (line : String)
deriving DecidableEq, Repr

/-- Whether an effect writes to the record store. -/
def Effect.isStoreWrite : Effect → Bool
  | .insert _ _ => true
  | .updateStatus _ _ => true
  | _ => false

namespace service

/-- Result of `service.PaymentService.CreatePayment`: the returned payment or
error, the store after the call, and the trace of effects performed. -/
structure CreateResult where
  payment : Option domain.Payment
  error : Option domain.Error
  store : db.Store
  effects : List Effect
deriving DecidableEq, Repr

/-- `PaymentService.CreatePayment` (internal/service/payment.go lines 30-84).
`newId` and `now` stand for the generated row id and the clock; `pubErr` is the
outcome of `publisher.PublishPaymentCreated` (`none` = success).  The store is
available, so the 500 branches for a failing existence check or insert are not
taken; a publish failure is only printed, never returned. -/
def CreatePayment (store : db.Store) (p : domain.PaymentRequest) (newId : Nat)
    (now : Nat) (pubErr : Option String) : CreateResult :=
  let exists0 := db.CheckExistence store p.reference
  if exists0 then
    { payment := none,
      error := some (domain.NewError 409 "Payment with this reference already exists"
        "A payment with the same reference has already been created"
        (some ("payment with reference " ++ p.reference ++ " already exists"))
        [("reference", p.reference)]),
      store := store,
      effects := [Effect.checkExistence p.reference] }
  else
    let created := db.CreatePayment store ⟨p.amount, p.currency, p.reference⟩ newId now
    let payment := created.1
    let logs : List Effect :=
      match pubErr with
      | some e => [Effect.logLine ("failed to publish message: " ++ e)]
      | none => []
    { payment := some ⟨payment.id, payment.amount, payment.currency, payment.reference,
        payment.status, payment.createdAt, payment.updatedAt⟩,
      error := none,
      store := created.2,
      effects := [Effect.checkExistence p.reference, Effect.insert payment.id p.reference,
        Effect.publish (uuid.render payment.id)] ++ logs }

/-- Result of `service.PaymentService.GetPaymentByID`: the returned payment or
error and the trace of effects (this operation never changes the store). -/
structure GetResult where
  payment : Option domain.Payment
  error : Option domain.Error
  effects : List Effect
deriving DecidableEq, Repr

/-- `PaymentService.GetPaymentByID` (internal/service/payment.go lines 86-119).
The store is available, so the 500 branch for a failing fetch is not taken. -/
def GetPaymentByID (store : db.Store) (id : String) : GetResult :=
  match uuid.Parse id with
  | none =>
    { payment := none,
      error := some (domain.NewError 400 "Invalid payment ID format"
        "The provided payment ID is not a valid UUID format"
        (some "invalid UUID format") []),
      effects := [] }
  | some paymentID =>
    let payment := db.GetPaymentByID store paymentID
    { payment := some ⟨payment.id, payment.amount, payment.currency, payment.reference,
        payment.status, payment.createdAt, payment.updatedAt⟩,
      error := none,
      effects := [Effect.fetchByID paymentID] }

/-- Result of `service.PaymentService.ProcessPayment`: the returned error (or
`none`), the store after the call, the effect trace, and whether the
`uuid.MustParse` call at the update site would have panicked. -/
structure ProcessResult where
  error : Option domain.Error
  store : db.Store
  effects : List Effect
  panicked : Bool
deriving DecidableEq, Repr

/-- `PaymentService.ProcessPayment` (internal/service/payment.go lines
121-191).  `failCoin` models the simulated outcome `rand.Float32() < 0.3`
(`true` = the simulated work failed); the 2-second sleep has no observable
effect; the store is available, so the 500 branches are not taken.  The second
parse mirrors `uuid.MustParse id` before the status update: `panicked` is set
on its failure branch. -/
def ProcessPayment (store : db.Store) (id : String) (failCoin : Bool)
    (now : Nat) : ProcessResult :=
  match uuid.Parse id with
  | none =>
    { error := some (domain.NewError 400 "Invalid payment ID format"
        "The provided payment ID is not a valid UUID format"
        (some "invalid UUID format") []),
      store := store, effects := [], panicked := false }
  | some paymentID =>
    let p := db.GetPaymentByIDWithLock store paymentID
    if p.id == uuid.Nil then
      { error := some (domain.NewError 404 "Payment not found"
          "The specified payment could not be found" none []),
        store := store, effects := [Effect.fetchWithLock paymentID], panicked := false }
    else if p.status != domain.StatusPending then
      { error := some (domain.NewError 409 "Payment already processed"
          ("This payment has already been processed with status " ++ p.status) none
          [("status", p.status)]),
        store := store,
        effects := [Effect.fetchWithLock paymentID,
          Effect.logLine ("payment " ++ id ++ " already processed with status " ++ p.status)],
        panicked := false }
    else
      let newStatus := if failCoin then domain.StatusFailed else domain.StatusSuccess
      match uuid.Parse id with
      | none =>
        { error := none, store := store, effects := [Effect.fetchWithLock paymentID],
          panicked := true }
      | some mustParsed =>
        let store1 := db.UpdatePaymentStatus store ⟨mustParsed, newStatus⟩ now
        { error := none, store := store1,
          effects := [Effect.fetchWithLock paymentID,
            Effect.updateStatus mustParsed newStatus,
            Effect.logLine ("payment " ++ id ++ " processed with status " ++ newStatus)],
          panicked := false }

end service

namespace rabbitmq

/-- `IsRetryable` (internal/queue/consumer.go lines 202-208): `false` for a nil
error, `true` for every non-nil error. -/
def IsRetryable (err : Option Pgm.domain.Error) : Bool :=
  match err with
  | none => false
  | some _ => true

/-- Modelled from the spec (§4.5 step 2): `retry.Do` of
`github.com/avast/retry-go` (external dependency) as configured by the
consumer — `Attempts`, `RetryIf`, and delay options, which do not affect which
outcome is returned.  `f n` is the error of the n-th attempt (`none` =
success); `fuel` counts the remaining retries after the current attempt.  The
call returns `none` as soon as an attempt succeeds, stops early on an error
the predicate rejects, and otherwise returns the final error once the attempt
budget is spent (retry-go aggregates the attempt errors; only the non-nilness
and kind of the result are used here, modelled by the last error). -/
def retryDoAux (retryIf : Option Pgm.domain.Error → Bool)
    (f : Nat → Option Pgm.domain.Error) : Nat → Nat → Option Pgm.domain.Error
  | n, 0 => f n
  | n, fuel + 1 =>
    match f n with
    | none => none
    | some e => if retryIf (some e) then retryDoAux retryIf f (n + 1) fuel else some e

/-- `retry.Do` with `Attempts attempts` (`attempts ≥ 1` in the consumer;
the default is 3): attempt indices run from 0 to `attempts - 1`. -/
def retryDo (attempts : Nat) (retryIf : Option Pgm.domain.Error → Bool)
    (f : Nat → Option Pgm.domain.Error) : Option Pgm.domain.Error :=
  retryDoAux retryIf f 0 (attempts - 1)

/-- An acknowledgment decision of the consumer loop for one delivery, with the
flags of `amqp.Delivery.Ack(multiple)` and `.Nack(multiple, requeue)`. -/
inductive DeliveryAction where
  | ack (multiple : Bool)
  | nack (multiple : Bool) (requeue : Bool)
deriving DecidableEq, Repr

/-- Whether an action is an acknowledgment. -/
def DeliveryAction.isAck : DeliveryAction → Bool
  | .ack _ => true
  | _ => false

/-- One iteration of the consumer loop in `RabbitMQConsumer.Start`
(internal/queue/consumer.go lines 150-189) for a delivered message: run the
processing attempt under `retry.Do` with `RetryIf(IsRetryable)`; on a non-nil
result `Nack(false, false)` — dead-letter, no requeue — otherwise
`Ack(false)`.  Exactly one action is issued per delivery. -/
def handleDelivery (attempts : Nat) (f : Nat → Option Pgm.domain.Error) :
    List DeliveryAction :=
  match retryDo attempts IsRetryable f with
  | some _ => [DeliveryAction.nack false false]
  | none => [DeliveryAction.ack false]

end rabbitmq

/-! Helper lemmas shared by the claim theorems. -/

/-- Looking up an id after `UpdatePaymentStatus` on that id finds the image of
the originally found row: the update preserves ids and rewrites status and
`updated_at`. -/
theorem find_after_updateStatus (store : db.Store) (pid : Nat) (s : String) (now : Nat) :
    ((db.UpdatePaymentStatus store ⟨pid, s⟩ now).find? fun p => p.id == pid) =
      (store.find? fun p => p.id == pid).map
        (fun p => { p with status := s, updatedAt := now }) := by
  induction store with
  | nil => simp [db.UpdatePaymentStatus]
  | cons p rest ih =>
    by_cases h : p.id = pid
    · simp [db.UpdatePaymentStatus, List.find?, h, -List.find?_map]
    · have hb : (p.id == pid) = false := by simpa using h
      simp only [db.UpdatePaymentStatus, List.map_cons] at ih ⊢
      have hfp : (if (p.id == pid) = true then
          ({ p with status := s, updatedAt := now } : db.Payment) else p) = p := by
        simp [hb]
      rw [hfp, List.find?_cons_of_neg _ (by simp [hb]),
        List.find?_cons_of_neg _ (by simp [hb])]
      exact ih

/-- A lookup on a store none of whose rows carries the id yields the zero
payment. -/
theorem getWithLock_absent (store : db.Store) (pid : Nat)
    (habsent : ∀ p ∈ store, p.id ≠ pid) :
    db.GetPaymentByIDWithLock store pid = db.nilPayment := by
  have hnone : (store.find? fun p => p.id == pid) = none := by
    rw [List.find?_eq_none]
    intro p hp
    simpa using habsent p hp
  simp [db.GetPaymentByIDWithLock, hnone]

/-- When every attempt fails, the modelled `retry.Do` returns a non-nil
error. -/
theorem retryDoAux_all_fail (f : Nat → Option domain.Error)
    (h : ∀ n, f n ≠ none) :
    ∀ fuel n, ∃ e, rabbitmq.retryDoAux rabbitmq.IsRetryable f n fuel = some e := by
  intro fuel
  induction fuel with
  | zero =>
    intro n
    cases hf : f n with
    | none => exact absurd hf (h n)
    | some e => exact ⟨e, by simp [rabbitmq.retryDoAux, hf]⟩
  | succ fuel ih =>
    intro n
    cases hf : f n with
    | none => exact absurd hf (h n)
    | some e =>
      obtain ⟨e1, he1⟩ := ih (n + 1)
      exact ⟨e1, by simp [rabbitmq.retryDoAux, hf, rabbitmq.IsRetryable, he1]⟩

/-! The claim theorems. -/

/-- C10: in `ProcessPayment` the call `uuid.MustParse id` before the status
update can never panic: it is reached only when the earlier `uuid.Parse id`
succeeded on the same string, and parsing is deterministic, so the panic
branch is unreachable for every input. -/
theorem processPayment_mustParse_no_panic (store : db.Store) (id : String)
    (failCoin : Bool) (now : Nat) :
    (service.ProcessPayment store id failCoin now).panicked = false := by
  unfold service.ProcessPayment
  cases h : uuid.Parse id with
  | none => simp
  | some paymentID =>
    simp only [h]
    split
    · rfl
    · split
      · rfl
      · rfl

/-- C1: `ProcessPayment` moves status only forward.  With a well-formed id and
an existing payment: when the fetched payment is `PENDING`, the call succeeds
and writes exactly one of `SUCCESS`/`FAILED` together with a fresh
`updated_at`; when it is not `PENDING`, the call returns the 409
`AlreadyProcessed` error and leaves the store — in particular `updated_at` and
every other field — unchanged. -/
theorem processPayment_forward_only (store : db.Store) (id : String)
    (paymentID : Nat) (failCoin : Bool) (now : Nat)
    (hparse : uuid.Parse id = some paymentID)
    (hfound : (db.GetPaymentByIDWithLock store paymentID).id ≠ uuid.Nil) :
    ((db.GetPaymentByIDWithLock store paymentID).status = domain.StatusPending →
      (service.ProcessPayment store id failCoin now).error = none ∧
      (db.GetPaymentByIDWithLock
          (service.ProcessPayment store id failCoin now).store paymentID).status =
        (if failCoin then domain.StatusFailed else domain.StatusSuccess) ∧
      ((if failCoin then domain.StatusFailed else domain.StatusSuccess) =
          domain.StatusSuccess ∨
        (if failCoin then domain.StatusFailed else domain.StatusSuccess) =
          domain.StatusFailed) ∧
      (db.GetPaymentByIDWithLock
          (service.ProcessPayment store id failCoin now).store paymentID).updatedAt =
        now) ∧
    ((db.GetPaymentByIDWithLock store paymentID).status ≠ domain.StatusPending →
      (service.ProcessPayment store id failCoin now).error =
        some (domain.NewError 409 "Payment already processed"
          ("This payment has already been processed with status " ++
            (db.GetPaymentByIDWithLock store paymentID).status) none
          [("status", (db.GetPaymentByIDWithLock store paymentID).status)]) ∧
      (service.ProcessPayment store id failCoin now).store = store) := by
  have hq : ∃ q, (store.find? fun p => p.id == paymentID) = some q ∧
      q = db.GetPaymentByIDWithLock store paymentID ∧ q.id = paymentID := by
    cases hf : (store.find? fun p => p.id == paymentID) with
    | none =>
      exfalso
      apply hfound
      simp [db.GetPaymentByIDWithLock, hf, db.nilPayment, uuid.Nil]
    | some q =>
      refine ⟨q, rfl, ?_, ?_⟩
      · simp [db.GetPaymentByIDWithLock, hf]
      · have := List.find?_some hf
        simpa using this
  obtain ⟨q, hfq, hqeq, hqid⟩ := hq
  have hb1 : ((db.GetPaymentByIDWithLock store paymentID).id == uuid.Nil) = false := by
    simpa [uuid.Nil] using hfound
  constructor
  · intro hpend
    have hb2 : ((db.GetPaymentByIDWithLock store paymentID).status !=
        domain.StatusPending) = false := by
      simp [hpend]
    have hr : service.ProcessPayment store id failCoin now =
        { error := none,
          store := db.UpdatePaymentStatus store
            ⟨paymentID, if failCoin then domain.StatusFailed else domain.StatusSuccess⟩ now,
          effects := [Effect.fetchWithLock paymentID,
            Effect.updateStatus paymentID
              (if failCoin then domain.StatusFailed else domain.StatusSuccess),
            Effect.logLine ("payment " ++ id ++ " processed with status " ++
              (if failCoin then domain.StatusFailed else domain.StatusSuccess))],
          panicked := false } := by
      unfold service.ProcessPayment
      rw [hparse]
      simp [hb1, hb2, hparse]
    rw [hr]
    refine ⟨rfl, ?_, ?_, ?_⟩
    · show (db.GetPaymentByIDWithLock _ _).status = _
      unfold db.GetPaymentByIDWithLock
      rw [find_after_updateStatus, hfq]
      rfl
    · cases failCoin with
      | false => left; rfl
      | true => right; rfl
    · show (db.GetPaymentByIDWithLock _ _).updatedAt = _
      unfold db.GetPaymentByIDWithLock
      rw [find_after_updateStatus, hfq]
      rfl
  · intro hnp
    have hb2 : ((db.GetPaymentByIDWithLock store paymentID).status !=
        domain.StatusPending) = true := by
      simpa using hnp
    unfold service.ProcessPayment
    rw [hparse]
    simp [hb1, hb2]

/-- Witness for C1 at a concrete pending payment and its already-processed
second call. -/
theorem processPayment_forward_only_witness :
    (db.GetPaymentByIDWithLock
        (service.ProcessPayment [⟨1, 5, "USD", "order-1", "PENDING", 3, 3⟩]
          "00000000-0000-0000-0000-000000000001" false 7).store 1).status =
      domain.StatusSuccess ∧
    (service.ProcessPayment [⟨1, 5, "USD", "order-1", "SUCCESS", 3, 7⟩]
        "00000000-0000-0000-0000-000000000001" false 9).store =
      [⟨1, 5, "USD", "order-1", "SUCCESS", 3, 7⟩] :=
  ⟨((processPayment_forward_only [⟨1, 5, "USD", "order-1", "PENDING", 3, 3⟩]
      "00000000-0000-0000-0000-000000000001" 1 false 7 (by decide) (by decide)).1
      (by decide)).2.1,
    ((processPayment_forward_only [⟨1, 5, "USD", "order-1", "SUCCESS", 3, 7⟩]
      "00000000-0000-0000-0000-000000000001" 1 false 9 (by decide) (by decide)).2
      (by decide)).2⟩

/-- C2: when a payment with the request's reference already exists,
`CreatePayment` returns the 409 `Conflict` error carrying that reference in
its arguments, returns no payment, inserts nothing (the store is unchanged and
no store-write effect is performed), and a store holding exactly one row for
that reference still holds exactly one afterwards. -/
theorem createPayment_duplicate_conflict (store : db.Store)
    (p : domain.PaymentRequest) (newId : Nat) (now : Nat) (pubErr : Option String)
    (hdup : db.CheckExistence store p.reference = true) :
    (service.CreatePayment store p newId now pubErr).payment = none ∧
    (service.CreatePayment store p newId now pubErr).error =
      some (domain.NewError 409 "Payment with this reference already exists"
        "A payment with the same reference has already been created"
        (some ("payment with reference " ++ p.reference ++ " already exists"))
        [("reference", p.reference)]) ∧
    (service.CreatePayment store p newId now pubErr).store = store ∧
    (∀ e ∈ (service.CreatePayment store p newId now pubErr).effects,
      e.isStoreWrite = false) ∧
    ((store.countP fun q => q.reference == p.reference) = 1 →
      ((service.CreatePayment store p newId now pubErr).store.countP
        fun q => q.reference == p.reference) = 1) := by
  have hr : service.CreatePayment store p newId now pubErr =
      { payment := none,
        error := some (domain.NewError 409 "Payment with this reference already exists"
          "A payment with the same reference has already been created"
          (some ("payment with reference " ++ p.reference ++ " already exists"))
          [("reference", p.reference)]),
        store := store,
        effects := [Effect.checkExistence p.reference] } := by
    unfold service.CreatePayment
    simp [hdup]
  rw [hr]
  refine ⟨rfl, rfl, rfl, ?_, ?_⟩
  · intro e he
    simp only [List.mem_singleton] at he
    rw [he]
    rfl
  · intro h1
    exact h1

/-- Witness for C2: a second creation with reference "order-1" against a store
already holding it. -/
theorem createPayment_duplicate_conflict_witness :
    (service.CreatePayment [⟨1, 5, "USD", "order-1", "PENDING", 0, 0⟩]
        ⟨7, "ETB", "order-1"⟩ 2 4 none).payment = none ∧
    (service.CreatePayment [⟨1, 5, "USD", "order-1", "PENDING", 0, 0⟩]
        ⟨7, "ETB", "order-1"⟩ 2 4 none).store =
      [⟨1, 5, "USD", "order-1", "PENDING", 0, 0⟩] :=
  ⟨(createPayment_duplicate_conflict [⟨1, 5, "USD", "order-1", "PENDING", 0, 0⟩]
      ⟨7, "ETB", "order-1"⟩ 2 4 none (by decide)).1,
    (createPayment_duplicate_conflict [⟨1, 5, "USD", "order-1", "PENDING", 0, 0⟩]
      ⟨7, "ETB", "order-1"⟩ 2 4 none (by decide)).2.2.1⟩

/-- C3: when the duplicate check passes and the insert succeeds, a failing
publish does not fail `CreatePayment`: the publish error is only written to
the log, the call returns no error, and the returned payment is the fully
populated persisted record (fresh id, `PENDING` status, both timestamps set),
which is also appended to the store. -/
theorem createPayment_publish_failure_swallowed (store : db.Store)
    (p : domain.PaymentRequest) (newId : Nat) (now : Nat) (emsg : String)
    (hnew : db.CheckExistence store p.reference = false) :
    (service.CreatePayment store p newId now (some emsg)).error = none ∧
    (service.CreatePayment store p newId now (some emsg)).payment =
      some ⟨newId, p.amount, p.currency, p.reference, "PENDING", now, now⟩ ∧
    (service.CreatePayment store p newId now (some emsg)).store =
      store ++ [⟨newId, p.amount, p.currency, p.reference, "PENDING", now, now⟩] ∧
    Effect.logLine ("failed to publish message: " ++ emsg) ∈
      (service.CreatePayment store p newId now (some emsg)).effects := by
  unfold service.CreatePayment
  rw [hnew]
  refine ⟨rfl, rfl, rfl, ?_⟩
  simp [db.CreatePayment]

/-- Witness for C3 on an empty store with a concrete failing publish. -/
theorem createPayment_publish_failure_swallowed_witness :
    (service.CreatePayment [] ⟨5, "USD", "order-1"⟩ 1 3 (some "amqp down")).error =
      none ∧
    (service.CreatePayment [] ⟨5, "USD", "order-1"⟩ 1 3 (some "amqp down")).payment =
      some ⟨1, 5, "USD", "order-1", "PENDING", 3, 3⟩ :=
  ⟨(createPayment_publish_failure_swallowed [] ⟨5, "USD", "order-1"⟩ 1 3
      "amqp down" (by decide)).1,
    (createPayment_publish_failure_swallowed [] ⟨5, "USD", "order-1"⟩ 1 3
      "amqp down" (by decide)).2.1⟩

/-- C4: the claim that invalid input fails with a `Validation` error before
any I/O is contradicted by the code: on the repository's own unit-test input
(`PaymentRequest` with amount -1, which its `Validate` rejects),
`service.CreatePayment` — which never calls `Validate`, nor does the HTTP
handler on the create path — performs the existence check and the insert and
returns the invalid payment with no error.  The test "validation failure"
expects a validation error and no store calls, so the code contradicts its own
test suite. -/
theorem createPayment_skips_validation :
    domain.PaymentRequest.Validate ⟨-1, "", ""⟩ = false ∧
    (service.CreatePayment [] ⟨-1, "", ""⟩ 1 0 none).error = none ∧
    (service.CreatePayment [] ⟨-1, "", ""⟩ 1 0 none).payment =
      some ⟨1, -1, "", "", "PENDING", 0, 0⟩ ∧
    Effect.checkExistence "" ∈ (service.CreatePayment [] ⟨-1, "", ""⟩ 1 0 none).effects ∧
    Effect.insert 1 "" ∈ (service.CreatePayment [] ⟨-1, "", ""⟩ 1 0 none).effects := by
  refine ⟨?_, ?_, ?_, ?_, ?_⟩
  · simp [domain.PaymentRequest.Validate]
  · rfl
  · rfl
  · simp [service.CreatePayment, db.CheckExistence, db.CreatePayment]
  · simp [service.CreatePayment, db.CheckExistence, db.CreatePayment]

/-- C5 counterexample: on the well-formed identifier
`00000000-0000-0000-0000-000000000001` and an empty store, `GetPaymentByID`
returns no error and a `some` payment (the zero-valued row), not the null
result the claim requires for an absent payment. -/
theorem getPaymentByID_absent_not_null :
    (service.GetPaymentByID [] "00000000-0000-0000-0000-000000000001").error = none ∧
    (service.GetPaymentByID [] "00000000-0000-0000-0000-000000000001").payment =
      some ⟨0, 0, "", "", "", 0, 0⟩ ∧
    (service.GetPaymentByID [] "00000000-0000-0000-0000-000000000001").payment ≠
      none := by
  refine ⟨by decide, by decide, by decide⟩

/-- C5 (amended): a malformed identifier fails with the 400 `InvalidArgument`
error and no payment; a well-formed identifier returns no error and the
fetched row mapped to the domain entity — for an absent payment this is the
zero-valued payment, not a null result; in all cases no store write is
performed. -/
theorem getPaymentByID_semantics (store : db.Store) (id : String) :
    (uuid.Parse id = none →
      (service.GetPaymentByID store id).error =
        some (domain.NewError 400 "Invalid payment ID format"
          "The provided payment ID is not a valid UUID format"
          (some "invalid UUID format") []) ∧
      (service.GetPaymentByID store id).payment = none) ∧
    (∀ paymentID, uuid.Parse id = some paymentID →
      (service.GetPaymentByID store id).error = none ∧
      (service.GetPaymentByID store id).payment =
        some ⟨(db.GetPaymentByID store paymentID).id,
          (db.GetPaymentByID store paymentID).amount,
          (db.GetPaymentByID store paymentID).currency,
          (db.GetPaymentByID store paymentID).reference,
          (db.GetPaymentByID store paymentID).status,
          (db.GetPaymentByID store paymentID).createdAt,
          (db.GetPaymentByID store paymentID).updatedAt⟩) ∧
    (∀ e ∈ (service.GetPaymentByID store id).effects, e.isStoreWrite = false) := by
  refine ⟨?_, ?_, ?_⟩
  · intro h
    unfold service.GetPaymentByID
    rw [h]
    exact ⟨rfl, rfl⟩
  · intro paymentID h
    unfold service.GetPaymentByID
    rw [h]
    exact ⟨rfl, rfl⟩
  · intro e he
    unfold service.GetPaymentByID at he
    cases h : uuid.Parse id with
    | none =>
      rw [h] at he
      simp at he
    | some paymentID =>
      rw [h] at he
      simp only [List.mem_singleton] at he
      rw [he]
      rfl

/-- Witness for C5 (amended) on a malformed and a well-formed identifier. -/
theorem getPaymentByID_semantics_witness :
    (service.GetPaymentByID [] "zzz").error =
      some (domain.NewError 400 "Invalid payment ID format"
        "The provided payment ID is not a valid UUID format"
        (some "invalid UUID format") []) ∧
    (service.GetPaymentByID [⟨1, 5, "USD", "order-1", "PENDING", 0, 0⟩]
        "00000000-0000-0000-0000-000000000001").error = none :=
  ⟨((getPaymentByID_semantics [] "zzz").1 (by decide)).1,
    ((getPaymentByID_semantics [⟨1, 5, "USD", "order-1", "PENDING", 0, 0⟩]
      "00000000-0000-0000-0000-000000000001").2.1 1 (by decide)).1⟩

/-- C6: on a well-formed identifier with no payment in the store,
`ProcessPayment` returns the 404 `NotFound` error (not an `Internal` error),
leaves the store unchanged, and performs no store write. -/
theorem processPayment_missing_not_found (store : db.Store) (id : String)
    (paymentID : Nat) (failCoin : Bool) (now : Nat)
    (hparse : uuid.Parse id = some paymentID)
    (habsent : ∀ p ∈ store, p.id ≠ paymentID) :
    (service.ProcessPayment store id failCoin now).error =
      some (domain.NewError 404 "Payment not found"
        "The specified payment could not be found" none []) ∧
    (service.ProcessPayment store id failCoin now).store = store ∧
    ∀ e ∈ (service.ProcessPayment store id failCoin now).effects,
      e.isStoreWrite = false := by
  have hnil := getWithLock_absent store paymentID habsent
  have hr : service.ProcessPayment store id failCoin now =
      { error := some (domain.NewError 404 "Payment not found"
          "The specified payment could not be found" none []),
        store := store,
        effects := [Effect.fetchWithLock paymentID],
        panicked := false } := by
    unfold service.ProcessPayment
    rw [hparse]
    simp [hnil, db.nilPayment, uuid.Nil]
  rw [hr]
  refine ⟨rfl, rfl, ?_⟩
  intro e he
  simp only [List.mem_singleton] at he
  rw [he]
  rfl

/-- Witness for C6 on an empty store and a concrete well-formed identifier. -/
theorem processPayment_missing_not_found_witness :
    (service.ProcessPayment [] "00000000-0000-0000-0000-000000000001" false 0).error =
      some (domain.NewError 404 "Payment not found"
        "The specified payment could not be found" none []) :=
  (processPayment_missing_not_found [] "00000000-0000-0000-0000-000000000001" 1
    false 0 (by decide) (by decide)).1

/-- C7 counterexample: the `NotFound` failure produced by `ProcessPayment` for
an absent payment is judged retryable by `IsRetryable` — the predicate returns
`true`, not the `false` the claim requires for non-retryable kinds. -/
theorem isRetryable_notFound_true :
    (service.ProcessPayment [] "00000000-0000-0000-0000-000000000001" false 0).error =
      some (domain.NewError 404 "Payment not found"
        "The specified payment could not be found" none []) ∧
    rabbitmq.IsRetryable
      (service.ProcessPayment [] "00000000-0000-0000-0000-000000000001" false 0).error =
      true := by
  exact ⟨by decide, by decide⟩

/-- C7 (amended): `IsRetryable` does not inspect the error kind at all: it
returns `true` for every non-nil error — including the `Validation`,
`NotFound`, `Conflict` and `AlreadyProcessed` kinds — and `false` only for a
nil error, so non-retryable failures burn the retry budget. -/
theorem isRetryable_ignores_kind (e : domain.Error) :
    rabbitmq.IsRetryable (some e) = true ∧ rabbitmq.IsRetryable none = false :=
  ⟨rfl, rfl⟩

/-- C8 counterexample: a delivery whose processing ends in the
`AlreadyProcessed` idempotent no-op (409) is not acknowledged: `ProcessPayment`
returns it as an error, every attempt repeats it, and the consumer loop
dead-letters the message with `Nack(false, false)` instead of `Ack`. -/
theorem consumer_nacks_already_processed :
    (service.ProcessPayment [⟨1, 5, "USD", "order-1", "SUCCESS", 0, 0⟩]
        "00000000-0000-0000-0000-000000000001" false 0).error =
      some (domain.NewError 409 "Payment already processed"
        "This payment has already been processed with status SUCCESS" none
        [("status", "SUCCESS")]) ∧
    rabbitmq.handleDelivery 3
      (fun _ => (service.ProcessPayment [⟨1, 5, "USD", "order-1", "SUCCESS", 0, 0⟩]
        "00000000-0000-0000-0000-000000000001" false 0).error) =
      [rabbitmq.DeliveryAction.nack false false] := by
  exact ⟨by decide, by decide⟩

/-- C8 (amended): the consumer loop acknowledges exactly the deliveries whose
`retry.Do` run returns a nil error (some attempt of `ProcessPayment`
succeeded); a delivery that fails on every attempt — which includes one stuck
on the `AlreadyProcessed` 409 error — is dead-lettered with
`Nack(false, false)` and never acknowledged. -/
theorem consumer_ack_on_nil_error (attempts : Nat)
    (f : Nat → Option domain.Error) :
    (rabbitmq.retryDo attempts rabbitmq.IsRetryable f = none →
      rabbitmq.handleDelivery attempts f = [rabbitmq.DeliveryAction.ack false]) ∧
    (∀ e, (∀ n, f n = some e) →
      rabbitmq.handleDelivery attempts f =
        [rabbitmq.DeliveryAction.nack false false]) := by
  constructor
  · intro h
    unfold rabbitmq.handleDelivery
    rw [h]
  · intro e he
    obtain ⟨e1, he1⟩ :=
      retryDoAux_all_fail f (fun n => by simp [he n]) (attempts - 1) 0
    unfold rabbitmq.handleDelivery rabbitmq.retryDo
    rw [he1]

/-- Witness for C8 (amended): an always-succeeding delivery is acknowledged
and an always-conflicting one is dead-lettered. -/
theorem consumer_ack_on_nil_error_witness :
    rabbitmq.handleDelivery 3 (fun _ => none) = [rabbitmq.DeliveryAction.ack false] ∧
    rabbitmq.handleDelivery 3
        (fun _ => some (domain.NewError 409 "Payment already processed" "" none [])) =
      [rabbitmq.DeliveryAction.nack false false] :=
  ⟨(consumer_ack_on_nil_error 3 (fun _ => none)).1 rfl,
    (consumer_ack_on_nil_error 3
      (fun _ => some (domain.NewError 409 "Payment already processed" "" none []))).2
      (domain.NewError 409 "Payment already processed" "" none [])
      (fun _ => rfl)⟩

/-- C9: a delivery that fails on every attempt is, once retries are exhausted,
rejected exactly once with `Nack(false, false)` — no requeue, routed to the
dead-letter destination — and receives zero acknowledgments. -/
theorem consumer_exhausted_dead_letter (attempts : Nat)
    (f : Nat → Option domain.Error) (hfail : ∀ n, f n ≠ none) :
    rabbitmq.handleDelivery attempts f = [rabbitmq.DeliveryAction.nack false false] ∧
    ((rabbitmq.handleDelivery attempts f).countP fun a => a.isAck) = 0 ∧
    ((rabbitmq.handleDelivery attempts f).countP fun a => !a.isAck) = 1 := by
  obtain ⟨e, he⟩ := retryDoAux_all_fail f hfail (attempts - 1) 0
  have h1 : rabbitmq.handleDelivery attempts f =
      [rabbitmq.DeliveryAction.nack false false] := by
    unfold rabbitmq.handleDelivery rabbitmq.retryDo
    rw [he]
  rw [h1]
  refine ⟨rfl, by decide, by decide⟩

/-- Witness for C9 with a permanently failing processing outcome. -/
theorem consumer_exhausted_dead_letter_witness :
    rabbitmq.handleDelivery 3
        (fun _ => some (domain.NewError 500 "Failed to fetch payment" "" none [])) =
      [rabbitmq.DeliveryAction.nack false false] :=
  (consumer_exhausted_dead_letter 3
    (fun _ => some (domain.NewError 500 "Failed to fetch payment" "" none []))
    (fun _ => by simp)).1

end Pgm
